import Mathlib

/-!
Shallow embedding of the semantic-postgres MCP pipeline.

The repository has two variants of the pipeline:
* `src/unnamed/part_000` — the full variant with Claude-based SQL synthesis
  (namespace `SemanticPG` below);
* `src/Index.js` — the variant without an LLM synthesizer
  (namespace `IndexJs` below).

External collaborators (embedding service, pgvector distance operator,
completion service, query execution backend) are modelled as explicit
function fields of an environment record; the `ORDER BY similarity DESC
LIMIT k` vector-similarity query issued against the relational store is
modelled as a stable descending sort followed by `take k`.
-/

/-- An embedding vector (`text-embedding-ada-002` output, a numeric vector). -/
abbrev Emb := List ℚ

/-- A result row returned by the relational store, as an opaque record. -/
abbrev Row := List (String × String)

/-- Observable external effects of one `semanticSQLExecute` request:
`completion` marks an invocation of the completion service (the synthesizer),
`execute stmt` marks an invocation of the query executor on candidate SQL. -/
inductive Event where
  | completion : Event
  | execute : String → Event
deriving DecidableEq, Repr

/-- Strip leading and trailing whitespace from a character list. -/
def trimChars (l : List Char) : List Char :=
  ((l.dropWhile Char.isWhitespace).reverse.dropWhile Char.isWhitespace).reverse

/-- JavaScript's `String.prototype.trim()`: strip leading and trailing
whitespace (modelled over ASCII whitespace). -/
def jsTrim (s : String) : String := ⟨trimChars s.data⟩

/-- JS truthiness test `sqlStatement && sqlStatement.trim()`: a direct SQL
statement is considered provided when it is present and non-blank. -/
def directProvided : Option String → Bool
  | some s => jsTrim s != ""
  | none => false

/-- Stable descending sort by a rational key, truncated to `k` elements:
the model of `ORDER BY similarity DESC LIMIT k`. -/
def rankTop (k : Nat) (key : α → ℚ) (l : List α) : List α :=
  (l.mergeSort (fun a b => decide (key b ≤ key a))).take k

/-- Sortedness by non-increasing key: for any positions `i < j`, the key at
`i` is at least the key at `j`. -/
def SortedDesc (key : α → ℚ) (l : List α) : Prop :=
  ∀ i j (hi : i < l.length) (hj : j < l.length), i < j →
    key (l.get ⟨j, hj⟩) ≤ key (l.get ⟨i, hi⟩)

/-- The sequence of first occurrences of each value, excluding values already
in `seen`, preserving first-appearance order. -/
def firstOccAux (seen : List String) : List String → List String
  | [] => []
  | x :: xs => if x ∈ seen then firstOccAux seen xs else x :: firstOccAux (seen ++ [x]) xs

/-- The distinct values of a list in order of first appearance. -/
def firstOcc (l : List String) : List String := firstOccAux [] l

namespace SemanticPG

/-- A row of the `table_metadata` table. -/
structure TableMetaRow where
  table_name : String
  description : String
  primary_key_column : String
  embedding : Emb
deriving DecidableEq, Repr

/-- A row of the `column_metadata` table. -/
structure ColumnMetaRow where
  table_name : String
  column_name : String
  data_type : String
  description : String
  is_primary_key : Bool
  is_foreign_key : Bool
  references_table : String
  references_column : String
  embedding : Emb
deriving DecidableEq, Repr

/-- A row of the `findSimilarTables` result set
(`SELECT table_name, description, 1 - (embedding <=> $1::vector) as similarity`). -/
structure SimilarTable where
  table_name : String
  description : String
  similarity : ℚ
deriving DecidableEq, Repr

/-- A row of the `findSimilarColumns` result set. -/
structure SimilarColumn where
  table_name : String
  column_name : String
  description : String
  data_type : String
  is_primary_key : Bool
  is_foreign_key : Bool
  references_table : String
  references_column : String
  similarity : ℚ
deriving DecidableEq, Repr

/-- A table descriptor as returned by `getDatabaseSchema`. -/
structure SchemaTable where
  table_name : String
  description : String
  primary_key_column : String
deriving DecidableEq, Repr

/-- A column descriptor as returned by `getDatabaseSchema`. -/
structure SchemaColumn where
  table_name : String
  column_name : String
  data_type : String
  description : String
  is_primary_key : Bool
  is_foreign_key : Bool
  references_table : String
  references_column : String
deriving DecidableEq, Repr

/-- The value returned by `getDatabaseSchema`. -/
structure DatabaseSchema where
  tables : List SchemaTable
  columns : List SchemaColumn
deriving DecidableEq, Repr

/-- The external world of one request: the embedding service
(`generateEmbedding` after its internal catch, hence `Option`), the vector
extension's cosine-distance operator used by the store, the two metadata
tables, the completion service, and the execution backend for candidate SQL. -/
structure Env where
  embed : String → Option Emb
  dist : Emb → Emb → ℚ
  tableMeta : List TableMetaRow
  columnMeta : List ColumnMetaRow
  complete : String → Except String String
  execQuery : String → Except String (List Row)

/-- The projection computed by the similar-tables query for one metadata row. -/
def scoreTable (env : Env) (qv : Emb) (r : TableMetaRow) : SimilarTable :=
  { table_name := r.table_name
    description := r.description
    similarity := 1 - env.dist r.embedding qv }

/-- The projection computed by the similar-columns query for one metadata row. -/
def scoreColumn (env : Env) (qv : Emb) (r : ColumnMetaRow) : SimilarColumn :=
  { table_name := r.table_name
    column_name := r.column_name
    description := r.description
    data_type := r.data_type
    is_primary_key := r.is_primary_key
    is_foreign_key := r.is_foreign_key
    references_table := r.references_table
    references_column := r.references_column
    similarity := 1 - env.dist r.embedding qv }

/-- `findSimilarTables`: embed the query (empty result on failure), then rank
`table_metadata` by similarity descending, limit 5. -/
def findSimilarTables (env : Env) (query : String) : List SimilarTable :=
  match env.embed query with
  | none => []
  | some qv => rankTop 5 SimilarTable.similarity (env.tableMeta.map (scoreTable env qv))

/-- `findSimilarColumns`: embed the query (empty result on failure), then rank
`column_metadata` by similarity descending, limit 10. -/
def findSimilarColumns (env : Env) (query : String) : List SimilarColumn :=
  match env.embed query with
  | none => []
  | some qv => rankTop 10 SimilarColumn.similarity (env.columnMeta.map (scoreColumn env qv))

/-- `getDatabaseSchema`: full projections of both metadata tables. -/
def getDatabaseSchema (env : Env) : DatabaseSchema :=
  { tables := env.tableMeta.map fun r =>
      { table_name := r.table_name
        description := r.description
        primary_key_column := r.primary_key_column }
    columns := env.columnMeta.map fun r =>
      { table_name := r.table_name
        column_name := r.column_name
        data_type := r.data_type
        description := r.description
        is_primary_key := r.is_primary_key
        is_foreign_key := r.is_foreign_key
        references_table := r.references_table
        references_column := r.references_column } }

/-- A column entry pushed into a relevance group
(`relevantTables[column.table_name].columns.push({...})`). -/
structure ColumnEntry where
  name : String
  data_type : String
  description : String
  is_primary_key : Bool
  is_foreign_key : Bool
  references_table : String
  references_column : String
deriving DecidableEq, Repr

/-- One relevance group of the `relevantTables` object built by
`generateSQLWithClaude`. -/
structure TableGroup where
  name : String
  columns : List ColumnEntry
  description : String
deriving DecidableEq, Repr

/-- The column entry built from one ranked column. -/
def colEntry (c : SimilarColumn) : ColumnEntry :=
  { name := c.column_name
    data_type := c.data_type
    description := c.description
    is_primary_key := c.is_primary_key
    is_foreign_key := c.is_foreign_key
    references_table := c.references_table
    references_column := c.references_column }

/-- `databaseSchema.tables.find(t => t.table_name === n)?.description || ""`. -/
def descFor (tables : List SchemaTable) (n : String) : String :=
  match tables.find? (fun t => t.table_name == n) with
  | some t => t.description
  | none => ""

/-- One iteration of the grouping loop in `generateSQLWithClaude`: create the
group on first sight of the table name, then push the column entry. -/
def insertColumn (schemaTables : List SchemaTable) (acc : List TableGroup)
    (c : SimilarColumn) : List TableGroup :=
  if c.table_name ∈ acc.map TableGroup.name then
    acc.map fun g =>
      if g.name = c.table_name then { g with columns := g.columns ++ [colEntry c] } else g
  else
    acc ++ [{ name := c.table_name
              columns := [colEntry c]
              description := descFor schemaTables c.table_name }]

/-- The grouping loop of `generateSQLWithClaude`, folding over `similarColumns`. -/
def relevantTablesAux (schemaTables : List SchemaTable) (acc : List TableGroup) :
    List SimilarColumn → List TableGroup
  | [] => acc
  | c :: cs => relevantTablesAux schemaTables (insertColumn schemaTables acc c) cs

/-- The `relevantTables` object of `generateSQLWithClaude`, as the list of its
values in key-insertion order. -/
def relevantTablesOf (schemaTables : List SchemaTable) (cols : List SimilarColumn) :
    List TableGroup :=
  relevantTablesAux schemaTables [] cols

/-- Key lookup in the assembled grouping (the JS object is keyed by table name). -/
def findGroup (gs : List TableGroup) (n : String) : Option TableGroup :=
  gs.find? (fun g => g.name == n)

/-- Serialization of one column entry inside the prompt. -/
def colLine (col : ColumnEntry) : String :=
  "- " ++ col.name ++ " (" ++ col.data_type ++ ")" ++
    (if col.is_primary_key then " PRIMARY KEY" else "") ++
    (if col.is_foreign_key then
      " FOREIGN KEY -> " ++ col.references_table ++ "." ++ col.references_column
     else "") ++
    " \n   Description: " ++ col.description

/-- Serialization of one table group inside the prompt. -/
def tableBlock (table : TableGroup) : String :=
  "\nTABLE: " ++ table.name ++ "\nDESCRIPTION: " ++ table.description ++
    "\nCOLUMNS:\n" ++ String.intercalate "\n" (table.columns.map colLine)

/-- The prompt string assembled by `generateSQLWithClaude`. -/
def buildPrompt (userQuery : String) (groups : List TableGroup) : String :=
  "\nYou are an expert SQL query generator. Given a user's natural language question and information about relevant database tables and columns, generate a valid PostgreSQL query that answers the user's question.\n\nUSER QUESTION:\n"
    ++ userQuery
    ++ "\n\nDATABASE SCHEMA:\nTables and columns that are most semantically relevant to the user's question:\n"
    ++ String.intercalate "\n\n" (groups.map tableBlock)
    ++ "\n\nTASK:\nGenerate a valid PostgreSQL query that answers the user's question based on the available database schema.\nYour query should:\n1. Include only tables and columns that exist in the database\n2. Use proper JOIN syntax where relationships between tables exist\n3. Use appropriate conditions and filters based on the user's question\n4. Be optimized and efficient\n5. Return meaningful column names (use aliases where appropriate)\n\nRESPONSE FORMAT:\nRespond with ONLY the SQL query, nothing else - no explanations, no comments, just the raw SQL query.\n"

/-- `generateSQLWithClaude`: group the ranked columns, build the prompt, invoke
the completion service, and extract the SQL candidate by trimming the raw
response text (`response.content[0].text.trim()`).  A service failure is
re-thrown as `Failed to generate SQL: <message>`. -/
def generateSQLWithClaude (env : Env) (userQuery : String)
    (similarTables : List SimilarTable) (similarColumns : List SimilarColumn)
    (databaseSchema : DatabaseSchema) : Except String String :=
  let relevantTables := relevantTablesOf databaseSchema.tables similarColumns
  let prompt := buildPrompt userQuery relevantTables
  let _unusedRankedTables := similarTables
  match env.complete prompt with
  | .ok text => .ok (jsTrim text)
  | .error msg => .error ("Failed to generate SQL: " ++ msg)

/-- The result envelope of `semanticSQLExecute`; absent JS object fields are
`none`. -/
structure ExecResult where
  results : List Row
  similarTables : Option (List SimilarTable)
  similarColumns : Option (List SimilarColumn)
  executedQuery : Option String
  generatedQuery : Option String
  error : Option String
deriving DecidableEq, Repr

/-- `semanticSQLExecute` of `src/unnamed/part_000`, paired with the trace of
completion-service and executor invocations it performs. -/
def semanticSQLExecute (env : Env) (query : String) (sqlStatement : Option String) :
    ExecResult × List Event :=
  let databaseSchema := getDatabaseSchema env
  let similarTables := findSimilarTables env query
  let similarColumns := findSimilarColumns env query
  if directProvided sqlStatement then
    let s := sqlStatement.getD ""
    match env.execQuery s with
    | .ok rows =>
        ({ results := rows
           similarTables := some similarTables
           similarColumns := some similarColumns
           executedQuery := some s
           generatedQuery := none
           error := none }, [.execute s])
    | .error msg =>
        ({ results := []
           similarTables := none
           similarColumns := none
           executedQuery := none
           generatedQuery := none
           error := some msg }, [.execute s])
  else if 0 < similarColumns.length then
    match generateSQLWithClaude env query similarTables similarColumns databaseSchema with
    | .error msg =>
        ({ results := []
           similarTables := none
           similarColumns := none
           executedQuery := none
           generatedQuery := none
           error := some msg }, [.completion])
    | .ok generatedSQL =>
        match env.execQuery generatedSQL with
        | .ok rows =>
            ({ results := rows
               similarTables := some similarTables
               similarColumns := some similarColumns
               executedQuery := some generatedSQL
               generatedQuery := none
               error := none }, [.completion, .execute generatedSQL])
        | .error msg =>
            ({ results := []
               similarTables := some similarTables
               similarColumns := some similarColumns
               executedQuery := none
               generatedQuery := some generatedSQL
               error := some ("Error executing generated SQL: " ++ msg) },
             [.completion, .execute generatedSQL])
  else
    ({ results := []
       similarTables := some similarTables
       similarColumns := some similarColumns
       executedQuery := none
       generatedQuery := none
       error := some "Could not determine which data to query." }, [])

end SemanticPG

namespace IndexJs

/-- A row of the `column_metadata` table as used by `src/Index.js`. -/
structure ColumnMetaRow where
  table_name : String
  column_name : String
  description : String
  embedding : Emb
deriving DecidableEq, Repr

/-- A row of the `findSimilarColumns` result set in `src/Index.js`
(`SELECT table_name, column_name, description, similarity`). -/
structure SimilarColumn where
  table_name : String
  column_name : String
  description : String
  similarity : ℚ
deriving DecidableEq, Repr

/-- The external world of one `src/Index.js` request. -/
structure Env where
  embed : String → Option Emb
  dist : Emb → Emb → ℚ
  columnMeta : List ColumnMetaRow
  execQuery : String → Except String (List Row)

/-- The projection computed by the `src/Index.js` similar-columns query. -/
def scoreColumn (env : Env) (qv : Emb) (r : ColumnMetaRow) : SimilarColumn :=
  { table_name := r.table_name
    column_name := r.column_name
    description := r.description
    similarity := 1 - env.dist r.embedding qv }

/-- `findSimilarColumns` of `src/Index.js`: limit 5. -/
def findSimilarColumns (env : Env) (query : String) : List SimilarColumn :=
  match env.embed query with
  | none => []
  | some qv => rankTop 5 SimilarColumn.similarity (env.columnMeta.map (scoreColumn env qv))

/-- The result envelope of `src/Index.js`'s `semanticSQLExecute`. -/
structure ExecResult where
  results : List Row
  similarColumns : Option (List SimilarColumn)
  executedQuery : Option String
  error : Option String
deriving DecidableEq, Repr

/-- `semanticSQLExecute` of `src/Index.js`, paired with the trace of executor
invocations (this variant never calls a completion service). -/
def semanticSQLExecute (env : Env) (query : String) (sqlStatement : Option String) :
    ExecResult × List Event :=
  let similarColumns := findSimilarColumns env query
  if directProvided sqlStatement then
    let s := sqlStatement.getD ""
    match env.execQuery s with
    | .ok rows =>
        ({ results := rows
           similarColumns := some similarColumns
           executedQuery := some s
           error := none }, [.execute s])
    | .error msg =>
        ({ results := []
           similarColumns := none
           executedQuery := none
           error := some msg }, [.execute s])
  else
    match similarColumns with
    | topColumn :: _ =>
        let generatedSQL := "SELECT * FROM " ++ topColumn.table_name ++ " LIMIT 10;"
        match env.execQuery generatedSQL with
        | .ok rows =>
            ({ results := rows
               similarColumns := some similarColumns
               executedQuery := some generatedSQL
               error := none }, [.execute generatedSQL])
        | .error msg =>
            ({ results := []
               similarColumns := none
               executedQuery := none
               error := some msg }, [.execute generatedSQL])
    | [] =>
        ({ results := []
           similarColumns := some []
           executedQuery := none
           error := some "Could not determine which data to query." }, [])

end IndexJs

/-! Concrete sample data and environments used as inputs for witnesses,
counterexamples and failing-input evaluations. -/

namespace SemanticPG

/-- A sample `table_metadata` row. -/
def tmProducts : TableMetaRow :=
  { table_name := "products"
    description := "Product catalog"
    primary_key_column := "product_id"
    embedding := [] }

/-- A sample `column_metadata` row. -/
def cmProductName : ColumnMetaRow :=
  { table_name := "products"
    column_name := "product_name"
    data_type := "text"
    description := "Name of the product"
    is_primary_key := false
    is_foreign_key := false
    references_table := ""
    references_column := ""
    embedding := [] }

/-- Environment whose embedding service is down and whose backend accepts
every statement. -/
def envNoEmbed : Env :=
  { embed := fun _ => none
    dist := fun _ _ => 0
    tableMeta := []
    columnMeta := []
    complete := fun _ => .ok ""
    execQuery := fun _ => .ok [] }

/-- Environment with one table and one column of metadata, a working embedding
service, and a backend that accepts every statement. -/
def envSmall : Env :=
  { embed := fun _ => some []
    dist := fun _ _ => 0
    tableMeta := [tmProducts]
    columnMeta := [cmProductName]
    complete := fun _ => .ok ""
    execQuery := fun _ => .ok [] }

/-- Environment whose completion service answers every prompt with a
destructive statement, and whose backend accepts every statement. -/
def envGenDelete : Env :=
  { envSmall with complete := fun _ => .ok "DELETE FROM orders;" }

/-- Environment whose backend rejects every statement. -/
def envExecFail : Env :=
  { envSmall with execQuery := fun _ => .error "relation does not exist" }

/-- Environment whose completion service wraps its answer in a fenced code
block. -/
def envFenced : Env :=
  { envSmall with complete := fun _ => .ok "```sql\nSELECT 1;\n```" }

/-- Environment whose completion service answers with surrounding whitespace. -/
def envPadded : Env :=
  { envSmall with complete := fun _ => .ok "  SELECT 1;  " }

/-- Environment whose completion service produces a statement the backend then
rejects. -/
def envGenFail : Env :=
  { envSmall with
    tableMeta := []
    complete := fun _ => .ok " SELECT nope; "
    execQuery := fun _ => .error "boom" }

/-- A ranked column used (twice) to probe duplicate handling in the context
assembler. -/
def dupCol : SimilarColumn :=
  { table_name := "orders"
    column_name := "total"
    description := "Order total"
    data_type := "numeric"
    is_primary_key := false
    is_foreign_key := false
    references_table := ""
    references_column := ""
    similarity := 1 }

end SemanticPG

namespace IndexJs

/-- A sample `column_metadata` row for the `src/Index.js` variant. -/
def cmProducts : ColumnMetaRow :=
  { table_name := "products"
    column_name := "product_name"
    description := "Name of the product"
    embedding := [] }

/-- Environment with one column of metadata, a working embedding service, and
a backend that accepts every statement. -/
def envSmall : Env :=
  { embed := fun _ => some []
    dist := fun _ _ => 0
    columnMeta := [cmProducts]
    execQuery := fun _ => .ok [] }

end IndexJs

/-! Helper lemmas about `rankTop`, the model of `ORDER BY similarity DESC
LIMIT k`. -/

theorem rankTop_pairwise (k : Nat) (key : α → ℚ) (l : List α) :
    (rankTop k key l).Pairwise (fun a b => key b ≤ key a) := by
  have hs := @List.sorted_mergeSort _ (fun a b => decide (key b ≤ key a))
    (by intro a b c hab hbc; simp_all; exact le_trans hbc hab)
    (by intro a b; simpa using le_total (key b) (key a)) l
  have hsub : (rankTop k key l).Sublist
      (l.mergeSort (fun a b => decide (key b ≤ key a))) := List.take_sublist _ _
  exact (hs.sublist hsub).imp (fun h => by simpa using h)

theorem rankTop_sortedDesc (k : Nat) (key : α → ℚ) (l : List α) :
    SortedDesc key (rankTop k key l) := by
  intro i j hi hj hij
  have h := List.pairwise_iff_getElem.mp (rankTop_pairwise k key l) i j hi hj hij
  simpa [List.get_eq_getElem] using h

theorem rankTop_length (k : Nat) (key : α → ℚ) (l : List α) :
    (rankTop k key l).length = min k l.length := by
  simp [rankTop]

/-- C2 — `findSimilarTables` and `findSimilarColumns` (given a successfully
computed query vector) return entities in non-increasing order of similarity,
and the result length is `min(k, |candidates|)` with `k = 5` for tables and
`k = 10` for columns. -/
theorem c2_ranking_sorted_truncated (env : SemanticPG.Env) (q : String) (qv : Emb)
    (h : env.embed q = some qv) :
    SortedDesc SemanticPG.SimilarTable.similarity (SemanticPG.findSimilarTables env q) ∧
    (SemanticPG.findSimilarTables env q).length = min 5 env.tableMeta.length ∧
    SortedDesc SemanticPG.SimilarColumn.similarity (SemanticPG.findSimilarColumns env q) ∧
    (SemanticPG.findSimilarColumns env q).length = min 10 env.columnMeta.length := by
  have ht : SemanticPG.findSimilarTables env q =
      rankTop 5 SemanticPG.SimilarTable.similarity
        (env.tableMeta.map (SemanticPG.scoreTable env qv)) := by
    simp [SemanticPG.findSimilarTables, h]
  have hc : SemanticPG.findSimilarColumns env q =
      rankTop 10 SemanticPG.SimilarColumn.similarity
        (env.columnMeta.map (SemanticPG.scoreColumn env qv)) := by
    simp [SemanticPG.findSimilarColumns, h]
  refine ⟨ht ▸ rankTop_sortedDesc _ _ _, ?_, hc ▸ rankTop_sortedDesc _ _ _, ?_⟩
  · rw [ht, rankTop_length, List.length_map]
  · rw [hc, rankTop_length, List.length_map]

/-- Witness for C2 at a concrete environment with one table and one column. -/
theorem c2_witness :
    SortedDesc SemanticPG.SimilarTable.similarity
      (SemanticPG.findSimilarTables SemanticPG.envSmall "q") ∧
    (SemanticPG.findSimilarTables SemanticPG.envSmall "q").length =
      min 5 SemanticPG.envSmall.tableMeta.length ∧
    SortedDesc SemanticPG.SimilarColumn.similarity
      (SemanticPG.findSimilarColumns SemanticPG.envSmall "q") ∧
    (SemanticPG.findSimilarColumns SemanticPG.envSmall "q").length =
      min 10 SemanticPG.envSmall.columnMeta.length :=
  c2_ranking_sorted_truncated SemanticPG.envSmall "q" [] rfl

/-- C3 — a failed embedding computation, or an empty candidate set, makes
`findSimilarTables` and `findSimilarColumns` return the empty result (the
functions are total: no fault propagates to the caller). -/
theorem c3_empty_result_on_failure (env : SemanticPG.Env) (q : String) :
    (env.embed q = none →
      SemanticPG.findSimilarTables env q = [] ∧ SemanticPG.findSimilarColumns env q = []) ∧
    (env.tableMeta = [] → SemanticPG.findSimilarTables env q = []) ∧
    (env.columnMeta = [] → SemanticPG.findSimilarColumns env q = []) := by
  refine ⟨fun h => ?_, fun h => ?_, fun h => ?_⟩
  · constructor <;> simp [SemanticPG.findSimilarTables, SemanticPG.findSimilarColumns, h]
  · cases he : env.embed q <;>
      simp [SemanticPG.findSimilarTables, he, h, rankTop]
  · cases he : env.embed q <;>
      simp [SemanticPG.findSimilarColumns, he, h, rankTop]

/-- Witness for C3 at a concrete environment whose embedding service fails. -/
theorem c3_witness :
    SemanticPG.findSimilarTables SemanticPG.envNoEmbed "q" = [] ∧
    SemanticPG.findSimilarColumns SemanticPG.envNoEmbed "q" = [] :=
  (c3_empty_result_on_failure SemanticPG.envNoEmbed "q").1 rfl

/-- C1 — there is no safety gate: `semanticSQLExecute` hands a destructive
statement straight to the executor, both when it is supplied directly and
when the completion service synthesizes it, and the request completes without
any rejection (`error = none`). -/
theorem c1_no_safety_gate :
    (SemanticPG.semanticSQLExecute SemanticPG.envNoEmbed "delete all orders"
        (some "DELETE FROM orders;")).2 = [Event.execute "DELETE FROM orders;"] ∧
    (SemanticPG.semanticSQLExecute SemanticPG.envNoEmbed "delete all orders"
        (some "DELETE FROM orders;")).1.executedQuery = some "DELETE FROM orders;" ∧
    (SemanticPG.semanticSQLExecute SemanticPG.envNoEmbed "delete all orders"
        (some "DELETE FROM orders;")).1.error = none ∧
    (SemanticPG.semanticSQLExecute SemanticPG.envGenDelete "delete all orders" none).2 =
      [Event.completion, Event.execute "DELETE FROM orders;"] := by
  refine ⟨rfl, rfl, rfl, ?_⟩
  simp [SemanticPG.semanticSQLExecute, SemanticPG.envGenDelete, SemanticPG.envSmall,
    SemanticPG.findSimilarColumns, SemanticPG.findSimilarTables, rankTop,
    SemanticPG.generateSQLWithClaude, directProvided,
    show jsTrim "DELETE FROM orders;" = "DELETE FROM orders;" from by decide]

/-- C4 (amended) — with a non-blank direct statement, the completion service
is never invoked and the executor runs exactly the supplied statement; on
backend success the envelope carries the similarity metadata, but on backend
failure the outer handler returns only the error, without the metadata. -/
theorem c4_direct_bypass (env : SemanticPG.Env) (q s : String)
    (h : directProvided (some s) = true) :
    (SemanticPG.semanticSQLExecute env q (some s)).2 = [Event.execute s] ∧
    (∀ rows, env.execQuery s = .ok rows →
      (SemanticPG.semanticSQLExecute env q (some s)).1 =
        { results := rows
          similarTables := some (SemanticPG.findSimilarTables env q)
          similarColumns := some (SemanticPG.findSimilarColumns env q)
          executedQuery := some s
          generatedQuery := none
          error := none }) ∧
    (∀ msg, env.execQuery s = .error msg →
      (SemanticPG.semanticSQLExecute env q (some s)).1 =
        { results := []
          similarTables := none
          similarColumns := none
          executedQuery := none
          generatedQuery := none
          error := some msg }) := by
  refine ⟨?_, fun rows hr => ?_, fun msg hm => ?_⟩
  · cases hq : env.execQuery s <;> simp [SemanticPG.semanticSQLExecute, h, hq]
  · simp [SemanticPG.semanticSQLExecute, h, hr]
  · simp [SemanticPG.semanticSQLExecute, h, hm]

/-- Witness for C4 at a concrete environment and direct statement. -/
theorem c4_witness :
    (SemanticPG.semanticSQLExecute SemanticPG.envNoEmbed "q"
        (some "SELECT product_name FROM products WHERE price > 100;")).2 =
      [Event.execute "SELECT product_name FROM products WHERE price > 100;"] ∧
    (SemanticPG.semanticSQLExecute SemanticPG.envNoEmbed "q"
        (some "SELECT product_name FROM products WHERE price > 100;")).1 =
      { results := []
        similarTables := some (SemanticPG.findSimilarTables SemanticPG.envNoEmbed "q")
        similarColumns := some (SemanticPG.findSimilarColumns SemanticPG.envNoEmbed "q")
        executedQuery := some "SELECT product_name FROM products WHERE price > 100;"
        generatedQuery := none
        error := none } := by
  have h := c4_direct_bypass SemanticPG.envNoEmbed "q"
    "SELECT product_name FROM products WHERE price > 100;" (by decide)
  exact ⟨h.1, h.2.1 [] rfl⟩

/-- Counterexample for C4 as stated: when the backend rejects the direct
statement, the returned envelope does not include the similarity metadata,
even though retrieval ran and produced a non-empty ranking. -/
theorem c4_counterexample :
    (SemanticPG.semanticSQLExecute SemanticPG.envExecFail "q" (some "SELECT 1;")).1.similarTables
        = none ∧
    SemanticPG.findSimilarTables SemanticPG.envExecFail "q" ≠ [] := by
  constructor
  · simp [SemanticPG.semanticSQLExecute, SemanticPG.envExecFail, SemanticPG.envSmall,
      show directProvided (some "SELECT 1;") = true from by decide]
  · simp [SemanticPG.findSimilarTables, SemanticPG.envExecFail, SemanticPG.envSmall, rankTop]

/-- C5 — with no direct statement and an empty column ranking, the pipeline
reports "Could not determine which data to query." and performs no external
calls at all: the completion service is never invoked. -/
theorem c5_no_schema_outcome (env : SemanticPG.Env) (q : String) (s : Option String)
    (h1 : directProvided s = false) (h2 : SemanticPG.findSimilarColumns env q = []) :
    SemanticPG.semanticSQLExecute env q s =
      ({ results := []
         similarTables := some (SemanticPG.findSimilarTables env q)
         similarColumns := some []
         executedQuery := none
         generatedQuery := none
         error := some "Could not determine which data to query." }, []) := by
  simp [SemanticPG.semanticSQLExecute, h1, h2]

/-- Witness for C5 at a concrete environment whose embedding service fails. -/
theorem c5_witness :
    SemanticPG.semanticSQLExecute SemanticPG.envNoEmbed "q" none =
      ({ results := []
         similarTables := some []
         similarColumns := some []
         executedQuery := none
         generatedQuery := none
         error := some "Could not determine which data to query." }, []) :=
  (c5_no_schema_outcome SemanticPG.envNoEmbed "q" none rfl rfl).trans rfl

/-- C9 (amended) — every backend or completion failure is caught and
converted into a structured envelope: a failing generated statement is
reported together with that statement (`generatedQuery`) and the backend
message; a failing completion service is reported with its message prefixed
`Failed to generate SQL: `; but a failing direct statement is reported with
the backend message only — the envelope does not carry the statement. -/
theorem c9_structured_errors (env : SemanticPG.Env) (q : String) :
    (∀ s msg, directProvided (some s) = true → env.execQuery s = .error msg →
      (SemanticPG.semanticSQLExecute env q (some s)).1 =
        { results := []
          similarTables := none
          similarColumns := none
          executedQuery := none
          generatedQuery := none
          error := some msg }) ∧
    (∀ s msg, directProvided s = false →
      0 < (SemanticPG.findSimilarColumns env q).length →
      SemanticPG.generateSQLWithClaude env q (SemanticPG.findSimilarTables env q)
        (SemanticPG.findSimilarColumns env q) (SemanticPG.getDatabaseSchema env) =
          .error msg →
      (SemanticPG.semanticSQLExecute env q s).1 =
        { results := []
          similarTables := none
          similarColumns := none
          executedQuery := none
          generatedQuery := none
          error := some msg }) ∧
    (∀ s gsql msg, directProvided s = false →
      0 < (SemanticPG.findSimilarColumns env q).length →
      SemanticPG.generateSQLWithClaude env q (SemanticPG.findSimilarTables env q)
        (SemanticPG.findSimilarColumns env q) (SemanticPG.getDatabaseSchema env) =
          .ok gsql →
      env.execQuery gsql = .error msg →
      (SemanticPG.semanticSQLExecute env q s).1 =
        { results := []
          similarTables := some (SemanticPG.findSimilarTables env q)
          similarColumns := some (SemanticPG.findSimilarColumns env q)
          executedQuery := none
          generatedQuery := some gsql
          error := some ("Error executing generated SQL: " ++ msg) }) := by
  refine ⟨fun s msg h1 h2 => ?_, fun s msg h1 h2 h3 => ?_, fun s gsql msg h1 h2 h3 h4 => ?_⟩
  · simp [SemanticPG.semanticSQLExecute, h1, h2]
  · simp [SemanticPG.semanticSQLExecute, h1, h2, h3]
  · simp [SemanticPG.semanticSQLExecute, h1, h2, h3, h4]

/-- Witness for C9 at a concrete environment where the synthesized statement
is rejected by the backend. -/
theorem c9_witness :
    (SemanticPG.semanticSQLExecute SemanticPG.envGenFail "q" none).1 =
      { results := []
        similarTables := some []
        similarColumns := some
          [{ table_name := "products"
             column_name := "product_name"
             description := "Name of the product"
             data_type := "text"
             is_primary_key := false
             is_foreign_key := false
             references_table := ""
             references_column := ""
             similarity := 1 }]
        executedQuery := none
        generatedQuery := some "SELECT nope;"
        error := some "Error executing generated SQL: boom" } := by
  have h := (c9_structured_errors SemanticPG.envGenFail "q").2.2 none "SELECT nope;" "boom"
    rfl
    (by simp [SemanticPG.findSimilarColumns, SemanticPG.envGenFail, SemanticPG.envSmall,
      rankTop])
    rfl rfl
  rw [h]
  simp [SemanticPG.findSimilarTables, SemanticPG.findSimilarColumns, SemanticPG.envGenFail,
    SemanticPG.envSmall, rankTop, SemanticPG.scoreColumn, SemanticPG.cmProductName]

/-- Counterexample for C9 as stated: a backend failure on a direct statement
is returned with the message only; no field of the envelope carries the
offending statement. -/
theorem c9_counterexample :
    (SemanticPG.semanticSQLExecute SemanticPG.envExecFail "q" (some "SELEC * FROM x;")).1 =
      { results := []
        similarTables := none
        similarColumns := none
        executedQuery := none
        generatedQuery := none
        error := some "relation does not exist" } := by
  simp [SemanticPG.semanticSQLExecute, SemanticPG.envExecFail, SemanticPG.envSmall,
    show directProvided (some "SELEC * FROM x;") = true from by decide]

/-- C10 — in the `src/Index.js` variant, with no direct statement and a
non-empty column ranking, the executed statement is exactly
`SELECT * FROM <t> LIMIT 10;` for the table of the single top-ranked column;
no other ranked column influences generation. -/
theorem c10_top_column_select (env : IndexJs.Env) (q : String) (s : Option String)
    (h1 : directProvided s = false) (c : IndexJs.SimilarColumn)
    (rest : List IndexJs.SimilarColumn)
    (h2 : IndexJs.findSimilarColumns env q = c :: rest) :
    (IndexJs.semanticSQLExecute env q s).2 =
      [Event.execute ("SELECT * FROM " ++ c.table_name ++ " LIMIT 10;")] ∧
    (∀ rows, env.execQuery ("SELECT * FROM " ++ c.table_name ++ " LIMIT 10;") = .ok rows →
      (IndexJs.semanticSQLExecute env q s).1.executedQuery =
        some ("SELECT * FROM " ++ c.table_name ++ " LIMIT 10;")) := by
  constructor
  · cases hq : env.execQuery ("SELECT * FROM " ++ c.table_name ++ " LIMIT 10;") <;>
      simp [IndexJs.semanticSQLExecute, h1, h2, hq]
  · intro rows hr
    simp [IndexJs.semanticSQLExecute, h1, h2, hr]

/-- Witness for C10 at a concrete environment with one ranked column. -/
theorem c10_witness :
    (IndexJs.semanticSQLExecute IndexJs.envSmall "q" none).2 =
      [Event.execute "SELECT * FROM products LIMIT 10;"] := by
  have h2 : IndexJs.findSimilarColumns IndexJs.envSmall "q" =
      IndexJs.scoreColumn IndexJs.envSmall [] IndexJs.cmProducts :: [] := by
    simp [IndexJs.findSimilarColumns, IndexJs.envSmall, rankTop]
  have h := (c10_top_column_select IndexJs.envSmall "q" none rfl _ _ h2).1
  simpa [IndexJs.scoreColumn, IndexJs.cmProducts] using h

/-- C8 (amended) — the synthesizer extracts the SQL candidate from a
successful completion response by trimming surrounding whitespace only; no
other wrapping (such as fenced code block markers) is removed, and no
semantic validation is performed. -/
theorem c8_trim_only (env : SemanticPG.Env) (q : String)
    (sT : List SemanticPG.SimilarTable) (sC : List SemanticPG.SimilarColumn)
    (ds : SemanticPG.DatabaseSchema) (r : String)
    (h : env.complete (SemanticPG.buildPrompt q (SemanticPG.relevantTablesOf ds.tables sC)) =
      .ok r) :
    SemanticPG.generateSQLWithClaude env q sT sC ds = .ok (jsTrim r) := by
  simp [SemanticPG.generateSQLWithClaude, h]

/-- Witness for C8 at a concrete environment whose completion response is
padded with whitespace. -/
theorem c8_witness :
    SemanticPG.generateSQLWithClaude SemanticPG.envPadded "q" [] []
      { tables := [], columns := [] } = .ok "SELECT 1;" := by
  rw [c8_trim_only SemanticPG.envPadded "q" [] [] { tables := [], columns := [] }
    "  SELECT 1;  " rfl]
  rfl

/-- Counterexample for C8 as stated: a fence-wrapped completion response
yields an extracted candidate that still begins with the fence marker. -/
theorem c8_counterexample :
    SemanticPG.generateSQLWithClaude SemanticPG.envFenced "q" [] []
        { tables := [], columns := [] } = .ok "```sql\nSELECT 1;\n```" ∧
    ("```sql\nSELECT 1;\n```").data.take 3 = ("```").data := by
  exact ⟨rfl, by decide⟩

/-! Helper lemmas characterizing the context assembler's grouping loop. -/

theorem insertColumn_name_mem (ts : List SemanticPG.SchemaTable)
    (acc : List SemanticPG.TableGroup) (c : SemanticPG.SimilarColumn)
    (h : c.table_name ∈ acc.map SemanticPG.TableGroup.name) :
    (SemanticPG.insertColumn ts acc c).map SemanticPG.TableGroup.name =
      acc.map SemanticPG.TableGroup.name := by
  rw [SemanticPG.insertColumn, if_pos h, List.map_map]
  apply List.map_congr_left
  intro g _
  by_cases hg : g.name = c.table_name <;> simp [hg]

theorem insertColumn_name_not_mem (ts : List SemanticPG.SchemaTable)
    (acc : List SemanticPG.TableGroup) (c : SemanticPG.SimilarColumn)
    (h : c.table_name ∉ acc.map SemanticPG.TableGroup.name) :
    (SemanticPG.insertColumn ts acc c).map SemanticPG.TableGroup.name =
      acc.map SemanticPG.TableGroup.name ++ [c.table_name] := by
  rw [SemanticPG.insertColumn, if_neg h]
  simp

theorem relevantTablesAux_names (ts : List SemanticPG.SchemaTable)
    (cols : List SemanticPG.SimilarColumn) :
    ∀ acc, (SemanticPG.relevantTablesAux ts acc cols).map SemanticPG.TableGroup.name =
      acc.map SemanticPG.TableGroup.name ++
        firstOccAux (acc.map SemanticPG.TableGroup.name)
          (cols.map SemanticPG.SimilarColumn.table_name) := by
  induction cols with
  | nil => intro acc; simp [SemanticPG.relevantTablesAux, firstOccAux]
  | cons c cs ih =>
    intro acc
    show (SemanticPG.relevantTablesAux ts (SemanticPG.insertColumn ts acc c) cs).map
        SemanticPG.TableGroup.name = _
    rw [ih]
    by_cases h : c.table_name ∈ acc.map SemanticPG.TableGroup.name
    · rw [insertColumn_name_mem ts acc c h]
      simp [firstOccAux, h]
    · rw [insertColumn_name_not_mem ts acc c h]
      simp [firstOccAux, h, List.append_assoc]


theorem findGroup_insertColumn (ts : List SemanticPG.SchemaTable)
    (acc : List SemanticPG.TableGroup) (c : SemanticPG.SimilarColumn) (n : String) :
    SemanticPG.findGroup (SemanticPG.insertColumn ts acc c) n =
      (if n = c.table_name then
        (match SemanticPG.findGroup acc n with
         | some g => some { g with columns := g.columns ++ [SemanticPG.colEntry c] }
         | none => some { name := c.table_name, columns := [SemanticPG.colEntry c], description := SemanticPG.descFor ts c.table_name })
       else SemanticPG.findGroup acc n) := by
  unfold SemanticPG.insertColumn SemanticPG.findGroup
  by_cases hmem : c.table_name ∈ acc.map SemanticPG.TableGroup.name
  · rw [if_pos hmem, List.find?_map]
    have hpu : ((fun g => SemanticPG.TableGroup.name g == n) ∘ fun g => if g.name = c.table_name then { g with columns := g.columns ++ [SemanticPG.colEntry c] } else g) = fun g => SemanticPG.TableGroup.name g == n := by
      funext g
      by_cases hg : g.name = c.table_name <;> simp [hg]
    rw [hpu]
    by_cases hn : n = c.table_name
    · have hsome : (acc.find? (fun g => SemanticPG.TableGroup.name g == n)).isSome := by
        rw [List.find?_isSome]
        obtain ⟨g, hgmem, hgname⟩ := List.mem_map.mp hmem
        exact ⟨g, hgmem, by simp [hgname, hn]⟩
      obtain ⟨g, hg⟩ := Option.isSome_iff_exists.mp hsome
      have hgname : g.name = n := by simpa using List.find?_some hg
      have hgc : g.name = c.table_name := hgname.trans hn
      rw [if_pos hn, hg]
      simp [hgc]
    · rw [if_neg hn]
      cases hg : acc.find? (fun g => SemanticPG.TableGroup.name g == n) with
      | none => simp [hg]
      | some g =>
        have hgname : g.name = n := by simpa using List.find?_some hg
        have hne : ¬ g.name = c.table_name := by rw [hgname]; exact hn
        simp [hg, hne]
  · rw [if_neg hmem, List.find?_append]
    by_cases hn : n = c.table_name
    · have hnone : acc.find? (fun g => SemanticPG.TableGroup.name g == n) = none := by
        rw [List.find?_eq_none]
        intro g hg
        simp only [beq_iff_eq]
        intro hname
        exact hmem ((hname.trans hn) ▸ List.mem_map_of_mem SemanticPG.TableGroup.name hg)
      rw [hnone, if_pos hn]
      simp [hn]
    · rw [if_neg hn]
      cases hg : acc.find? (fun g => SemanticPG.TableGroup.name g == n) with
      | none => simp [hg, Ne.symm hn]
      | some g => simp [hg]

theorem relevantTablesAux_findGroup (ts : List SemanticPG.SchemaTable)
    (cols : List SemanticPG.SimilarColumn) :
    ∀ acc n, SemanticPG.findGroup (SemanticPG.relevantTablesAux ts acc cols) n =
      (match SemanticPG.findGroup acc n with
       | some g => some { g with columns := g.columns ++
           (cols.filter (fun c => c.table_name == n)).map SemanticPG.colEntry }
       | none =>
         if n ∈ cols.map SemanticPG.SimilarColumn.table_name then
           some { name := n
                  columns := (cols.filter (fun c => c.table_name == n)).map SemanticPG.colEntry
                  description := SemanticPG.descFor ts n }
         else none) := by
  induction cols with
  | nil =>
    intro acc n
    cases h : SemanticPG.findGroup acc n <;> simp [SemanticPG.relevantTablesAux, h]
  | cons c cs ih =>
    intro acc n
    show SemanticPG.findGroup (SemanticPG.relevantTablesAux ts (SemanticPG.insertColumn ts acc c) cs) n = _
    rw [ih, findGroup_insertColumn]
    by_cases hn : n = c.table_name
    · have hbeq : (c.table_name == n) = true := by simp [hn]
      cases hg : SemanticPG.findGroup acc n with
      | some g =>
        rw [if_pos hn]
        simp [List.filter_cons, hbeq, List.append_assoc]
      | none =>
        rw [if_pos hn]
        simp [List.filter_cons, hbeq, hn]
    · have hbeq : (c.table_name == n) = false := by simp; exact fun h => hn h.symm
      rw [if_neg hn]
      cases hg : SemanticPG.findGroup acc n with
      | some g => simp [List.filter_cons, hbeq]
      | none => simp [List.filter_cons, hbeq, hn]

/-- C6 — the context assembler groups the ranked columns by owning table
name: the groups appear in the order their first contributing column appeared
in the ranked column list, and the group for table `n` exists exactly when
some ranked column belongs to `n`, holds exactly the entries of the ranked
columns of `n` in ranking order, and carries `n`'s description looked up in
the full schema metadata with fallback to the empty string (`descFor`). -/
theorem c6_assembler_grouping (ts : List SemanticPG.SchemaTable)
    (cols : List SemanticPG.SimilarColumn) :
    (SemanticPG.relevantTablesOf ts cols).map SemanticPG.TableGroup.name =
      firstOcc (cols.map SemanticPG.SimilarColumn.table_name) ∧
    ∀ n, SemanticPG.findGroup (SemanticPG.relevantTablesOf ts cols) n =
      (if n ∈ cols.map SemanticPG.SimilarColumn.table_name then
        some { name := n
               columns := (cols.filter (fun c => c.table_name == n)).map SemanticPG.colEntry
               description := SemanticPG.descFor ts n }
       else none) := by
  constructor
  · rw [SemanticPG.relevantTablesOf]
    have h := relevantTablesAux_names ts cols []
    simpa [firstOcc] using h
  · intro n
    rw [SemanticPG.relevantTablesOf]
    have h := relevantTablesAux_findGroup ts cols [] n
    simpa [SemanticPG.findGroup] using h

theorem colEntry_filter_length (cols : List SemanticPG.SimilarColumn) (n cn : String) :
    (((cols.filter (fun c => c.table_name == n)).map SemanticPG.colEntry).filter
        (fun e => e.name == cn)).length =
      (cols.filter (fun c => c.table_name == n && c.column_name == cn)).length := by
  induction cols with
  | nil => rfl
  | cons c cs ih =>
    by_cases h1 : c.table_name = n <;> by_cases h2 : c.column_name = cn <;>
      simp [List.filter_cons, h1, h2, SemanticPG.colEntry, ih]

/-- C7 (amended) — a duplicated ranked column is not ignored: each occurrence
is appended to its table's group, so the number of entries for a column in
its group equals the number of its occurrences in the ranked column list. -/
theorem c7_duplicates_kept (ts : List SemanticPG.SchemaTable)
    (cols : List SemanticPG.SimilarColumn) (n cn : String) :
    (match SemanticPG.findGroup (SemanticPG.relevantTablesOf ts cols) n with
     | some g => (g.columns.filter (fun e => e.name == cn)).length
     | none => 0) =
      (cols.filter (fun c => c.table_name == n && c.column_name == cn)).length := by
  have key := relevantTablesAux_findGroup ts cols [] n
  have h0 : SemanticPG.findGroup ([] : List SemanticPG.TableGroup) n = none := rfl
  simp only [h0] at key
  by_cases hmem : n ∈ cols.map SemanticPG.SimilarColumn.table_name
  · rw [SemanticPG.relevantTablesOf, key, if_pos hmem]
    exact colEntry_filter_length cols n cn
  · rw [SemanticPG.relevantTablesOf, key, if_neg hmem]
    have hnil : cols.filter (fun c => c.table_name == n && c.column_name == cn) = [] := by
      rw [List.filter_eq_nil_iff]
      intro a ha
      simp only [Bool.and_eq_true, beq_iff_eq, not_and]
      intro h1 _
      exact hmem (h1 ▸ List.mem_map_of_mem SemanticPG.SimilarColumn.table_name ha)
    simp [hnil]

/-- Counterexample for C7 as stated: passing the same ranked column twice
makes its group contain the entry twice, not exactly once. -/
theorem c7_counterexample :
    (SemanticPG.relevantTablesOf [] [SemanticPG.dupCol, SemanticPG.dupCol]).map
        (fun g => (g.columns.filter (fun e => e.name == "total")).length) ≠ [1] ∧
    (SemanticPG.relevantTablesOf [] [SemanticPG.dupCol, SemanticPG.dupCol]).map
        (fun g => (g.columns.filter (fun e => e.name == "total")).length) = [2] := by
  exact ⟨by decide, by decide⟩
